import Mathlib

/-!
Shallow embedding of the mygym-backend points-ledger core:
the Mongoose models (User, Gym, Transaction), the ledger operation
`Transaction.createTransaction` (src/models/Transaction.js), the QR
utilities `generateGymQRCode` / `verifyQRCode` (src/utils/qrGenerator.js),
and the controllers `generateQRCode`, `scanQRCode`, `addPoints`,
`updateUser` (src/controllers/qrController.js and the user controller).

Conventions of the embedding:
- Mongo ObjectIds are `String`.
- Mongoose `Number` fields are `ℚ` (JS numbers are not restricted to
  integers; schema validators such as `min` are modelled explicitly).
- Time is `Nat`, measured in minutes (the code uses `Date`;
  `setHours(+h)` adds `h * 60` minutes).
- Optional / possibly-undefined JS fields are `Option`.
- The Mongoose session in `createTransaction` is modelled by threading a
  buffered copy of the store through the steps; `commitTransaction`
  returns the buffer as the new store, `abortTransaction` discards it.
- Storage failures ("any storage failure" in the spec) are injected via
  a `StorageOp → Bool` schedule: a `true` entry makes that await throw.
-/

namespace MyGym

/-- Roles from src/config/roles.js (`ROLES`). -/
inductive Role where
  | superAdmin
  | admin
  | gym
  | user
deriving DecidableEq, Repr

/-- The fields of the User model (src/models/User.js) that the ledger and
controllers touch.  `points` has schema validators `min: 0` (checked in
`userValid` below, enforced on save). -/
structure UserDoc where
  _id : String
  name : String
  email : String
  role : Role
  points : ℚ
  isActive : Bool
deriving DecidableEq, Repr

/-- The `qrCode` subdocument of the Gym model (src/models/Gym.js):
`code` and `expiresAt` are each individually optional in the schema. -/
structure QRCodeData where
  code : Option String
  expiresAt : Option Nat
deriving DecidableEq, Repr

/-- The fields of the Gym model (src/models/Gym.js) that the QR lifecycle
and the scan flow touch.  `qrCode = none` models a gym document on which
the subdocument was never set (JS-falsy `gym.qrCode`). -/
structure GymDoc where
  _id : String
  name : String
  pointsRequired : ℚ
  qrCode : Option QRCodeData
deriving DecidableEq, Repr

/-- Transaction `type` enum (src/models/Transaction.js). -/
inductive TxnType where
  | EARN
  | SPEND
deriving DecidableEq, Repr

/-- Transaction `status` enum (src/models/Transaction.js). -/
inductive TxnStatus where
  | PENDING
  | COMPLETED
  | FAILED
  | CANCELLED
deriving DecidableEq, Repr

/-- The `metadata` blob of a transaction (src/models/Transaction.js). -/
structure TxnMeta where
  qrCodeId : Option String
  deviceInfo : Option String
  ipAddress : Option String
deriving DecidableEq, Repr

/-- A persisted Transaction document.  `_id` is the Mongo-assigned
identity (fresh on insert).  `gymId` is `Option` because callers pass
`req.body.gymId || null`; the schema declares it `required`, which is
checked in `txnValid` below, not by the type. -/
structure TxnDoc where
  _id : Nat
  userId : String
  gymId : Option String
  points : ℚ
  type : TxnType
  description : String
  status : TxnStatus
  metadata : TxnMeta
  createdBy : Option String
deriving DecidableEq, Repr

/-- The input object `transactionData` destructured at the top of
`Transaction.createTransaction`. -/
structure TxnData where
  userId : String
  gymId : Option String
  points : ℚ
  type : TxnType
  description : String
  metadata : TxnMeta
  createdBy : Option String
deriving DecidableEq, Repr

/-- The persistent store: the three Mongo collections the core uses. -/
structure AppState where
  users : List UserDoc
  gyms : List GymDoc
  transactions : List TxnDoc
deriving DecidableEq, Repr

/-- `User.findById` / `Gym.findById`: first document with the given id. -/
def findUser (users : List UserDoc) (i : String) : Option UserDoc :=
  users.find? fun u => u._id == i

/-- `Gym.findById`. -/
def findGym (gyms : List GymDoc) (i : String) : Option GymDoc :=
  gyms.find? fun g => g._id == i

/-- `user.save()` after mutating `user.points`: replace the document with
the given id, setting its points. -/
def setUserPoints (users : List UserDoc) (i : String) (pts : ℚ) : List UserDoc :=
  users.map fun u => if u._id = i then { u with points := pts } else u

/-- `gym.save()` after mutating the document: replace by id. -/
def setGym (gyms : List GymDoc) (g : GymDoc) : List GymDoc :=
  gyms.map fun old => if old._id = g._id then g else old

/-- Schema validation run by Mongoose when the transaction document is
inserted (src/models/Transaction.js lines 4-23): `userId` required,
`gymId` required, `points` required with `min: 1`, `type` in the enum
(guaranteed by `TxnType`). -/
def txnValid (t : TxnDoc) : Bool :=
  t.userId ≠ "" && t.gymId.isSome && decide (1 ≤ t.points)

/-- Schema validation run on `user.save()` (src/models/User.js line 33):
`points` has `min: 0`. -/
def userValid (u : UserDoc) : Bool :=
  decide (0 ≤ u.points)

/-- The awaited storage operations inside `createTransaction`, in program
order; a failure schedule marks which of them throw. -/
inductive StorageOp where
  | findUserOp
  | createTxnOp
  | saveUserOp
  | saveTxnOp
  | commitOp
deriving DecidableEq, Repr

/-- The all-succeed storage schedule. -/
def noFail : StorageOp → Bool := fun _ => false

/-- The body of the `try` block of `Transaction.createTransaction`
(src/models/Transaction.js lines 63-104), operating on the session's
buffered copy of the store.  Steps, mirroring the source: find the user
(throw `User not found` if absent); insert the record with status
PENDING (Mongoose validates the schema first); for EARN add the points,
for SPEND throw `Insufficient points` unless balance suffices, then
subtract; save the user (schema `min: 0` validated); flip the record to
COMPLETED and save it. -/
def createTransactionAux (fail : StorageOp → Bool) (sess : AppState)
    (d : TxnData) : Except String (AppState × TxnDoc) :=
  if fail .findUserOp then .error "storage failure" else
  match findUser sess.users d.userId with
  | none => .error "User not found"
  | some user =>
    let pending : TxnDoc :=
      { _id := sess.transactions.length, userId := d.userId, gymId := d.gymId,
        points := d.points, type := d.type, description := d.description,
        status := .PENDING, metadata := d.metadata, createdBy := d.createdBy }
    if !txnValid pending then .error "Transaction validation failed" else
    if fail .createTxnOp then .error "storage failure" else
    let sess1 : AppState := { sess with transactions := sess.transactions ++ [pending] }
    let newPts : Except String ℚ :=
      match d.type with
      | .EARN => .ok (user.points + d.points)
      | .SPEND =>
          if user.points < d.points then .error "Insufficient points"
          else .ok (user.points - d.points)
    match newPts with
    | .error e => .error e
    | .ok v =>
      if !userValid { user with points := v } then .error "User validation failed" else
      if fail .saveUserOp then .error "storage failure" else
      let sess2 : AppState := { sess1 with users := setUserPoints sess1.users d.userId v }
      if fail .saveTxnOp then .error "storage failure" else
      let completed : TxnDoc := { pending with status := .COMPLETED }
      let sess3 : AppState :=
        { sess2 with transactions :=
            sess2.transactions.map fun t =>
              if t._id = pending._id then completed else t }
      if fail .commitOp then .error "storage failure" else
      .ok (sess3, completed)

/-- `Transaction.createTransaction` (src/models/Transaction.js lines
56-111): run the try-block on a session buffer; on success
`commitTransaction` makes the buffer the new store and the COMPLETED
record is returned; on any thrown error `abortTransaction` discards the
buffer, so the store is unchanged and the error propagates. -/
def createTransaction (fail : StorageOp → Bool) (st : AppState)
    (d : TxnData) : AppState × Except String TxnDoc :=
  match createTransactionAux fail st d with
  | .ok (sess, t) => (sess, .ok t)
  | .error e => (st, .error e)

/-- The JSON payload embedded in a gym QR code
(src/utils/qrGenerator.js lines 15-21).  A presented payload comes from
`JSON.parse` of attacker-controlled text, so every field is optional. -/
structure QRPayload where
  id : Option String
  gymId : Option String
  name : Option String
  pointsRequired : Option ℚ
  timestamp : Option Nat
deriving DecidableEq, Repr

/-- Result object of `generateGymQRCode` (src/utils/qrGenerator.js lines
41-46); the rendered image URL is irrelevant to the logic and elided. -/
structure QRGenResult where
  code : String
  data : QRPayload
  expiresAt : Nat
deriving DecidableEq, Repr

/-- JS truthiness of a possibly-undefined string: `undefined`, missing
and `""` are falsy. -/
def strTruthy : Option String → Bool
  | none => false
  | some s => s ≠ ""

/-- `generateGymQRCode` (src/utils/qrGenerator.js lines 9-51): build the
payload `{id, gymId, name, pointsRequired, timestamp}` from the gym and
a fresh uuid, and set `expiresAt = now + expiryHours` (the env default
is 24 hours; time here is in minutes, so `setHours(+h)` is `+ h * 60`).
The uuid and the current time are parameters of the embedding. -/
def generateGymQRCode (gym : GymDoc) (qrId : String) (now : Nat)
    (expiryHours : Nat) : QRGenResult :=
  { code := qrId,
    data := { id := some qrId, gymId := some gym._id, name := some gym.name,
              pointsRequired := some gym.pointsRequired, timestamp := some now },
    expiresAt := now + expiryHours * 60 }

/-- `gym.isQRCodeExpired()` (src/models/Gym.js lines 128-131): expired
when there is no `qrCode` subdocument, no `expiresAt`, or the current
time is strictly past `expiresAt` (`new Date() > this.qrCode.expiresAt`). -/
def isQRCodeExpired (now : Nat) (gym : GymDoc) : Bool :=
  match gym.qrCode with
  | none => true
  | some q =>
    match q.expiresAt with
    | none => true
    | some e => decide (e < now)

/-- `verifyQRCode(payload, gym)` (src/utils/qrGenerator.js lines 59-86),
at current time `now`.  Mirrors the source checks in order: required
fields present and truthy; `payload.gymId === gym._id.toString()`; then,
each guarded by `gym.qrCode &&`: not expired, and
`payload.id === gym.qrCode.code`. -/
def verifyQRCode (now : Nat) (payload : Option QRPayload) (gym : GymDoc) : Bool :=
  match payload with
  | none => false
  | some p =>
    if !strTruthy p.id || !strTruthy p.gymId then false
    else if p.gymId ≠ some gym._id then false
    else if gym.qrCode.isSome && isQRCodeExpired now gym then false
    else
      match gym.qrCode with
      | some q => if p.id ≠ q.code then false else true
      | none => true

/-- Outcome of the `generateQRCode` controller. -/
inductive GenerateResult where
  | gymNotFound
  | ok (qr : QRGenResult)
deriving DecidableEq, Repr

/-- The `generateQRCode` controller (src/controllers/qrController.js
lines 11-45): find the gym (404 if absent), generate the QR data, store
`gym.qrCode = {code, expiresAt}` and save the gym. -/
def generateQRCode (st : AppState) (gymId : String) (qrId : String)
    (now : Nat) (expiryHours : Nat) : AppState × GenerateResult :=
  match findGym st.gyms gymId with
  | none => (st, .gymNotFound)
  | some gym =>
    let qrData := generateGymQRCode gym qrId now expiryHours
    let gym2 : GymDoc :=
      { gym with qrCode := some { code := some qrData.code,
                                  expiresAt := some qrData.expiresAt } }
    ({ st with gyms := setGym st.gyms gym2 }, .ok qrData)

/-- Outcome of the `scanQRCode` controller, one constructor per early
return of the source. -/
inductive ScanResult where
  | invalidQRData
  | gymNotFound
  | invalidOrExpiredCode
  | userNotFound
  | notEnoughPoints (required available : ℚ)
  | internalError (e : String)
  | accessGranted (respPoints : ℚ)
deriving DecidableEq, Repr

/-- The `scanQRCode` controller (src/controllers/qrController.js lines
52-137): parse the raw payload (400 on parse failure, modelled by the
`Option`); `Gym.findById(payload.gymId)` (404 if absent);
`verifyQRCode(payload, gym)` (400 if false); find the user (404);
reject if `user.points < gym.pointsRequired`; otherwise delegate to
`Transaction.createTransaction` with a SPEND of `gym.pointsRequired`,
and answer with `user.points - pointsRequired`, computed from the
user document loaded before the ledger call. -/
def scanQRCode (fail : StorageOp → Bool) (st : AppState) (userId : String)
    (parsed : Option QRPayload) (deviceInfo : Option String) (now : Nat) :
    AppState × ScanResult :=
  match parsed with
  | none => (st, .invalidQRData)
  | some p =>
    match (match p.gymId with
           | none => none
           | some gid => findGym st.gyms gid) with
    | none => (st, .gymNotFound)
    | some gym =>
      if verifyQRCode now (some p) gym = false then (st, .invalidOrExpiredCode)
      else
        match findUser st.users userId with
        | none => (st, .userNotFound)
        | some user =>
          if user.points < gym.pointsRequired then
            (st, .notEnoughPoints gym.pointsRequired user.points)
          else
            let d : TxnData :=
              { userId := user._id, gymId := some gym._id,
                points := gym.pointsRequired, type := .SPEND,
                description := "Gym access: " ++ gym.name,
                metadata := { qrCodeId := p.id, deviceInfo := deviceInfo,
                              ipAddress := none },
                createdBy := none }
            match createTransaction fail st d with
            | (st2, .ok _) => (st2, .accessGranted (user.points - gym.pointsRequired))
            | (st2, .error e) => (st2, .internalError e)

/-- Outcome of the `addPoints` controller. -/
inductive AddPointsResult where
  | badAmount
  | userNotFound
  | internalError (e : String)
  | ok (respPoints pointsAdded : ℚ)
deriving DecidableEq, Repr

/-- The `addPoints` controller (user controller, lines 475-528 of the
concatenated src/controllers/qrController.js): reject unless `points` is
present and positive (`!points || points <= 0`); find the user (404);
then `user.points += points; await user.save()` — a direct, unsessioned
balance write — followed by `Transaction.createTransaction` with an EARN
of the same `points` (`gymId: req.body.gymId || null`,
`createdBy: req.user._id`).  The success response reports the in-memory
`user.points` of the document loaded at the top, not the balance the
ledger call persisted. -/
def addPoints (fail : StorageOp → Bool) (st : AppState) (adminId : String)
    (targetId : String) (points : Option ℚ) (reason : Option String)
    (gymId : Option String) (ipAddress : Option String) :
    AppState × AddPointsResult :=
  match points with
  | none => (st, .badAmount)
  | some p =>
    if p ≤ 0 then (st, .badAmount)
    else
      match findUser st.users targetId with
      | none => (st, .userNotFound)
      | some user =>
        let st1 : AppState :=
          { st with users := setUserPoints st.users targetId (user.points + p) }
        let d : TxnData :=
          { userId := user._id, gymId := gymId, points := p, type := .EARN,
            description := (match reason with
                            | some r => r
                            | none => "Admin added points"),
            metadata := { qrCodeId := none, deviceInfo := none,
                          ipAddress := ipAddress },
            createdBy := some adminId }
        match createTransaction fail st1 d with
        | (st2, .ok _) => (st2, .ok (user.points + p) p)
        | (st2, .error e) => (st2, .internalError e)

/-- The request body of the `updateUser` controller, restricted to the
fields the embedding tracks (`phone`, `address`, `profilePicture` touch
neither the balance nor the ledger and are elided). -/
structure UpdateUserBody where
  name : Option String
  email : Option String
  role : Option Role
  points : Option ℚ
  isActive : Option Bool
deriving DecidableEq, Repr

/-- Outcome of the `updateUser` controller. -/
inductive UpdateUserResult where
  | forbidden
  | userNotFound
  | saveFailed
  | ok (u : UserDoc)
deriving DecidableEq, Repr

/-- The requester-is-admin test the handler repeats before each gated
field update: `req.user.role === ROLES.SUPER_ADMIN || req.user.role ===
ROLES.ADMIN`. -/
def isAdminReq (requester : UserDoc) : Prop :=
  requester.role = .superAdmin ∨ requester.role = .admin

instance (requester : UserDoc) : Decidable (isAdminReq requester) := by
  unfold isAdminReq; infer_instance

/-- `if (req.body.name) user.name = req.body.name` (JS truthiness:
absent or empty string means skip). -/
def applyNameUpd (bn : Option String) (u : UserDoc) : UserDoc :=
  match bn with
  | some n => if n ≠ "" then { u with name := n } else u
  | none => u

/-- `if (req.body.email) user.email = req.body.email`. -/
def applyEmailUpd (be : Option String) (u : UserDoc) : UserDoc :=
  match be with
  | some e => if e ≠ "" then { u with email := e } else u
  | none => u

/-- The role update: only admins, and an ADMIN cannot grant
SUPER_ADMIN. -/
def applyRoleUpd (requester : UserDoc) (br : Option Role) (u : UserDoc) : UserDoc :=
  match br with
  | some r =>
    if isAdminReq requester ∧ (requester.role = .superAdmin ∨
        (requester.role = .admin ∧ r ≠ .superAdmin)) then
      { u with role := r }
    else u
  | none => u

/-- The points update: `user.points = req.body.points` whenever the
requester is an admin and `req.body.points !== undefined` — a direct
overwrite of the balance from the request body, with no ledger call. -/
def applyPointsUpd (requester : UserDoc) (bp : Option ℚ) (u : UserDoc) : UserDoc :=
  match bp with
  | some pts => if isAdminReq requester then { u with points := pts } else u
  | none => u

/-- The isActive update (admins only). -/
def applyActiveUpd (requester : UserDoc) (ba : Option Bool) (u : UserDoc) : UserDoc :=
  match ba with
  | some b => if isAdminReq requester then { u with isActive := b } else u
  | none => u

/-- The field-update sequence of the handler body, in source order. -/
def updateUserCore (requester : UserDoc) (body : UpdateUserBody)
    (u0 : UserDoc) : UserDoc :=
  applyActiveUpd requester body.isActive
    (applyPointsUpd requester body.points
      (applyRoleUpd requester body.role
        (applyEmailUpd body.email (applyNameUpd body.name u0))))

/-- The `updateUser` controller (user controller, lines 303-389 of the
concatenated src/controllers/qrController.js): a plain USER may only
update itself; find the target (404); apply the conditional field
updates in source order via `updateUserCore`; then `user.save()`
(schema `min: 0` on points validated).  No Transaction document is
written anywhere in this handler. -/
def updateUser (st : AppState) (requester : UserDoc) (targetId : String)
    (body : UpdateUserBody) : AppState × UpdateUserResult :=
  if requester.role = .user ∧ requester._id ≠ targetId then (st, .forbidden)
  else
    match findUser st.users targetId with
    | none => (st, .userNotFound)
    | some u0 =>
      let u5 := updateUserCore requester body u0
      if !userValid u5 then (st, .saveFailed)
      else
        ({ st with users := st.users.map fun u =>
             if u._id = targetId then u5 else u }, .ok u5)

/-- The scan flow's gym resolution (src/controllers/qrController.js line
69): `Gym.findById(payload.gymId)` — the lookup key is the payload's own
embedded gym identity (`findById(undefined)` matches nothing). -/
def resolveScanGym (st : AppState) (p : QRPayload) : Option GymDoc :=
  match p.gymId with
  | none => none
  | some gid => findGym st.gyms gid

/-- For the refinement claim about the scan flow: `verifyQRCode` with the
gym-identity equality check (`payload.gymId !== gym._id.toString()`)
removed, used to show that check never decides the outcome when the gym
was resolved from the payload itself. -/
def verifyQRCodeSansGymCheck (now : Nat) (payload : Option QRPayload)
    (gym : GymDoc) : Bool :=
  match payload with
  | none => false
  | some p =>
    if !strTruthy p.id || !strTruthy p.gymId then false
    else if gym.qrCode.isSome && isQRCodeExpired now gym then false
    else
      match gym.qrCode with
      | some q => if p.id ≠ q.code then false else true
      | none => true

/-- Folding a list of ledger requests through `createTransaction`,
keeping whatever store each call leaves behind (on failure the call
leaves the store unchanged). -/
def applyAll (fail : StorageOp → Bool) (st : AppState)
    (ds : List TxnData) : AppState :=
  ds.foldl (fun s d => (createTransaction fail s d).1) st

/-- A found user document satisfies the lookup predicate. -/
lemma findUser_id (users : List UserDoc) (i : String) (u : UserDoc)
    (h : findUser users i = some u) : u._id = i := by
  have := List.find?_some h
  simpa using this

/-- A found gym document satisfies the lookup predicate. -/
lemma findGym_id (gyms : List GymDoc) (i : String) (g : GymDoc)
    (h : findGym gyms i = some g) : g._id = i := by
  have := List.find?_some h
  simpa using this

/-- After replacing the found gym with an update carrying the same id,
the lookup returns the update. -/
lemma findGym_setGym (gyms : List GymDoc) (i : String) (g g' : GymDoc)
    (h : findGym gyms i = some g) (hid : g'._id = g._id) :
    findGym (setGym gyms g') i = some g' := by
  have hgi : g._id = i := findGym_id gyms i g h
  induction gyms with
  | nil => simp [findGym] at h
  | cons a l ih =>
    by_cases ha : a._id = i
    · have : a = g := by
        simp only [findGym, List.find?] at h
        rw [show (a._id == i) = true by simpa using ha] at h
        simpa using h
      subst this
      simp [findGym, setGym, List.find?, hid, hgi]
    · have h' : findGym l i = some g := by
        simp only [findGym, List.find?] at h ⊢
        rw [show (a._id == i) = false by simpa using ha] at h
        exact h
      have := ih h'
      simp only [findGym, setGym, List.find?] at this ⊢
      have hne : ¬ a._id = g'._id := by
        rw [hid, hgi]; exact ha
      rw [if_neg hne]
      rw [show (a._id == i) = false by simpa using ha]
      simpa [setGym] using this

/-- If the try-block of `createTransaction` reaches the commit, the
users collection of the committed session is the original one with the
target's balance replaced by a non-negative value (the `min: 0` save
validation passed). -/
lemma createTransactionAux_ok_users (fail : StorageOp → Bool)
    (sess : AppState) (d : TxnData) (sess' : AppState) (t : TxnDoc)
    (h : createTransactionAux fail sess d = .ok (sess', t)) :
    ∃ v : ℚ, 0 ≤ v ∧ sess'.users = setUserPoints sess.users d.userId v := by
  unfold createTransactionAux at h
  repeat' split at h
  all_goals simp_all [userValid, setUserPoints, ite_eq_iff]
  all_goals first
    | (obtain ⟨-, hnn, hst, -⟩ := h
       first
         | exact ⟨_, hnn, by rw [← hst]⟩
         | exact ⟨_, hnn, by rw [hst]⟩)
    | (obtain ⟨-, hst, -⟩ := h
       exact ⟨_, sub_nonneg.mpr (by assumption), by rw [← hst]⟩)

/-- C3 — Atomicity of the ledger unit: whenever
`Transaction.createTransaction` fails — user missing, schema validation
failure, insufficient balance on SPEND, or an injected storage failure
at any await — the store after the call is exactly the store before it:
every balance is unchanged and the transaction log has gained no record
at all (in particular no COMPLETED and no visible PENDING record). -/
theorem c3_createTransaction_atomic (fail : StorageOp → Bool)
    (st : AppState) (d : TxnData) (e : String)
    (h : (createTransaction fail st d).2 = .error e) :
    (createTransaction fail st d).1.users = st.users ∧
      (createTransaction fail st d).1.transactions = st.transactions := by
  unfold createTransaction at h ⊢
  cases haux : createTransactionAux fail st d with
  | ok p => rcases p with ⟨sess, t⟩; rw [haux] at h; simp at h
  | error e' => exact ⟨rfl, rfl⟩

/-- An all-absent metadata blob, used by the concrete instances below. -/
def emptyMeta : TxnMeta :=
  { qrCodeId := none, deviceInfo := none, ipAddress := none }

/-- A ledger request used by several concrete instances below. -/
def dNoUser : TxnData :=
  { userId := "ghost", gymId := some "g1", points := 40, type := .EARN,
    description := "grant", metadata := emptyMeta, createdBy := some "a1" }

/-- The empty store. -/
def stEmpty : AppState := { users := [], gyms := [], transactions := [] }

/-- Witness for C3: a concrete failing call (missing account) leaves the
empty store untouched. -/
theorem c3_witness :
    (createTransaction noFail stEmpty dNoUser).1.users = stEmpty.users ∧
      (createTransaction noFail stEmpty dNoUser).1.transactions =
        stEmpty.transactions :=
  c3_createTransaction_atomic noFail stEmpty dNoUser "User not found" rfl

/-- Applying one ledger call keeps every balance non-negative: on
failure the store is untouched, and on success the only changed balance
is the target's, which passed the `min: 0` save validation. -/
lemma createTransaction_preserves_nonneg (fail : StorageOp → Bool)
    (st : AppState) (d : TxnData) (h : ∀ u ∈ st.users, 0 ≤ u.points) :
    ∀ u ∈ (createTransaction fail st d).1.users, 0 ≤ u.points := by
  unfold createTransaction
  cases haux : createTransactionAux fail st d with
  | error e => exact h
  | ok p =>
    rcases p with ⟨sess', t⟩
    obtain ⟨v, hv, husers⟩ :=
      createTransactionAux_ok_users fail st d sess' t haux
    intro u hu
    have hu' : u ∈ sess'.users := hu
    rw [husers] at hu'
    rcases List.mem_map.mp hu' with ⟨u0, hu0, rfl⟩
    by_cases hid : u0._id = d.userId
    · simpa [setUserPoints, hid] using hv
    · simpa [setUserPoints, hid] using h u0 hu0

/-- C4 — Non-negative balance invariant: starting from any store whose
accounts all have non-negative balances, after any sequence of ledger
calls through `createTransaction` (EARN or SPEND, successful or not —
failed calls leave the store untouched) every account balance is still
non-negative; in particular it holds after each successful application,
since every prefix of the sequence is itself such a sequence. -/
theorem c4_balance_nonneg (fail : StorageOp → Bool) (ds : List TxnData)
    (st : AppState) (h : ∀ u ∈ st.users, 0 ≤ u.points) :
    ∀ u ∈ (applyAll fail st ds).users, 0 ≤ u.points := by
  induction ds generalizing st with
  | nil => simpa [applyAll] using h
  | cons d rest ih =>
    have h1 := createTransaction_preserves_nonneg fail st d h
    simpa [applyAll, List.foldl_cons] using
      ih (createTransaction fail st d).1 h1

/-- The member account of the concrete scenarios: balance 5. -/
def uMember : UserDoc :=
  { _id := "u1", name := "Mem", email := "mem at x", role := .user,
    points := 5, isActive := true }

/-- The admin account of the concrete scenarios. -/
def uAdmin : UserDoc :=
  { _id := "a1", name := "Adm", email := "adm at x", role := .admin,
    points := 0, isActive := true }

/-- A gym with entry price 10 and no QR session issued yet. -/
def gOne : GymDoc :=
  { _id := "g1", name := "G", pointsRequired := 10, qrCode := none }

/-- The concrete store of the scenarios: the member, the admin, one gym,
an empty transaction log. -/
def stD : AppState :=
  { users := [uMember, uAdmin], gyms := [gOne], transactions := [] }

/-- An EARN ledger request of 40 points against the member account. -/
def dEarn40 : TxnData :=
  { userId := "u1", gymId := some "g1", points := 40, type := .EARN,
    description := "grant", metadata := emptyMeta, createdBy := some "a1" }

/-- Witness for C4: the concrete store with balances 5 and 0 keeps all
balances non-negative after a ledger EARN of 40. -/
theorem c4_witness :
    ((applyAll noFail stD [dEarn40]).users.all fun u => decide (0 ≤ u.points))
      = true := by
  rw [List.all_eq_true]
  intro u hu
  simpa using c4_balance_nonneg noFail [dEarn40] stD (by decide) u hu

/-- Any ledger request whose amount is below 1 dies in the schema
validation of the inserted record (`points` has `min: 1`), before any
balance arithmetic. -/
lemma createTransactionAux_lt_one_error (fail : StorageOp → Bool)
    (sess : AppState) (d : TxnData) (h : d.points < 1) :
    ∃ e, createTransactionAux fail sess d = .error e := by
  unfold createTransactionAux
  split
  · exact ⟨_, rfl⟩
  · split
    · exact ⟨_, rfl⟩
    · simp [txnValid, decide_eq_false (not_le.mpr h)]

/-- C8 (amended) — `createTransaction` rejects every amount smaller than
1 (hence every amount ≤ 0): the call fails and the store is unchanged,
so no transaction record is created and no balance moves.  (The claim's
stronger statement — rejection of every non-integer amount — is refuted
by `c8_noninteger_amount_accepted` below: the schema only enforces
`min: 1` on the `Number` field, so 3/2 is accepted.) -/
theorem c8_amount_below_one_rejected (fail : StorageOp → Bool)
    (st : AppState) (d : TxnData) (h : d.points < 1) :
    (createTransaction fail st d).1 = st ∧
      ∃ e, (createTransaction fail st d).2 = .error e := by
  obtain ⟨e, he⟩ := createTransactionAux_lt_one_error fail st d h
  unfold createTransaction
  rw [he]
  exact ⟨rfl, e, rfl⟩

/-- A zero-amount ledger request against the member account. -/
def dEarn0 : TxnData :=
  { userId := "u1", gymId := some "g1", points := 0, type := .EARN,
    description := "zero", metadata := emptyMeta, createdBy := some "a1" }

/-- Witness for C8 (amended): the concrete zero-amount request is
rejected and leaves the store unchanged. -/
theorem c8_witness :
    (createTransaction noFail stD dEarn0).1 = stD ∧
      ∃ e, (createTransaction noFail stD dEarn0).2 = .error e :=
  c8_amount_below_one_rejected noFail stD dEarn0 (by norm_num [dEarn0])

/-- A non-integer ledger request: one and a half points. -/
def dEarnHalf : TxnData :=
  { userId := "u1", gymId := some "g1", points := 3/2, type := .EARN,
    description := "frac", metadata := emptyMeta, createdBy := some "a1" }

/-- The record the non-integer request persists. -/
def txHalf : TxnDoc :=
  { _id := 0, userId := "u1", gymId := some "g1", points := 3/2,
    type := .EARN, description := "frac", status := .COMPLETED,
    metadata := emptyMeta, createdBy := some "a1" }

/-- C8 (counterexample) — the claim "createTransaction fails for every
non-integer amount, creating no record and changing no balance" is
false: the non-integer amount 3/2 is accepted (only `min: 1` is
enforced), a COMPLETED record for 3/2 points is persisted, and the
member's balance moves from 5 to 13/2. -/
theorem c8_noninteger_amount_accepted :
    (createTransaction noFail stD dEarnHalf).2 = .ok txHalf ∧
      (createTransaction noFail stD dEarnHalf).1.users =
        [{ uMember with points := 13/2 }, uAdmin] ∧
      (createTransaction noFail stD dEarnHalf).1.transactions = [txHalf] := by
  simp [createTransaction, createTransactionAux, findUser, txnValid, userValid,
    setUserPoints, noFail, stD, uMember, uAdmin, dEarnHalf, txHalf, emptyMeta,
    List.find?, decide_eq_true (show (1:ℚ) ≤ 3/2 by norm_num),
    show (5:ℚ) + 3/2 = 13/2 from by norm_num,
    decide_eq_true (show (0:ℚ) ≤ 13/2 by norm_num)]

/-- The transaction record persisted by the manual grant of 40 points. -/
def txGrant40 : TxnDoc :=
  { _id := 0, userId := "u1", gymId := some "g1", points := 40,
    type := .EARN, description := "Admin added points", status := .COMPLETED,
    metadata := emptyMeta, createdBy := some "a1" }

/-- C1 — Scenario D evaluated on the code: the admin manually grants 40
EARN points to the member whose balance is 5 (gym supplied, all storage
succeeding).  One COMPLETED EARN record with `createdBy` = the admin is
persisted as the claim says, but the persisted balance is 85, not 45:
`addPoints` adds the 40 directly (`user.points += points; save()`) and
then `createTransaction` adds the same 40 again — while the HTTP
response reports 45 from the stale in-memory document. -/
theorem c1_manual_grant_double_credit :
    addPoints noFail stD "a1" "u1" (some 40) none (some "g1") none =
      ({ users := [{ uMember with points := 85 }, uAdmin], gyms := [gOne],
         transactions := [txGrant40] }, .ok 45 40) := by
  simp [addPoints, findUser, createTransaction, createTransactionAux, txnValid,
    userValid, setUserPoints, noFail, stD, uMember, uAdmin, gOne, txGrant40,
    emptyMeta, List.find?,
    show (5:ℚ) + 40 = 45 from by norm_num,
    show (45:ℚ) + 40 = 85 from by norm_num]

/-- C9 — a manual grant with no gym identity evaluated on the code: the
admin grants 40 points to the member with `gymId` absent.  The claim
(and the controller's own comment `// Optional gym ID`) say this
succeeds and persists a gym-less record, but the Transaction schema
declares `gymId` required, so `createTransaction` aborts with a
validation error and no record is persisted — the handler answers 500,
after the direct `user.points += points; save()` has already pushed the
balance to 45. -/
theorem c9_gymless_grant_rejected :
    addPoints noFail stD "a1" "u1" (some 40) none none none =
      ({ users := [{ uMember with points := 45 }, uAdmin], gyms := [gOne],
         transactions := [] },
        .internalError "Transaction validation failed") := by
  simp [addPoints, findUser, createTransaction, createTransactionAux, txnValid,
    userValid, setUserPoints, noFail, stD, uMember, uAdmin, gOne, emptyMeta,
    List.find?, show (5:ℚ) + 40 = 45 from by norm_num]

/-- A fabricated payload never issued by anyone: a made-up token with
the gym's id embedded. -/
def pForged : QRPayload :=
  { id := some "forged-token", gymId := some "g1", name := none,
    pointsRequired := none, timestamp := none }

/-- C2 (counterexample) — the claim "verify returns false whenever the
gym has no current session" is false on the code: for the gym `gOne`,
which has no `qrCode` subdocument at all, the fabricated payload
verifies as true, because both the expiry check and the token check are
guarded by `gym.qrCode &&` and are skipped when no session exists. -/
theorem c2_no_session_accepts_any_payload :
    verifyQRCode 0 (some pForged) gOne = true ∧ gOne.qrCode = none := by
  constructor
  · simp [verifyQRCode, pForged, gOne, strTruthy, isQRCodeExpired]
  · rfl

/-- C2 (amended) — full characterization of `verifyQRCode`: it returns
true iff the payload has a truthy `id` and a truthy `gymId`, the
embedded gym identity equals the gym's identity, and — only when the
gym has a current `qrCode` session — that session is unexpired and the
payload's token equals the session's token.  When the gym has no
current session, every well-shaped payload naming the gym verifies as
true (clauses (a), (b), (d), (e) of the claim hold, but clause (c) —
"a current session exists" — is not required by the code). -/
theorem c2_verify_characterization (now : Nat) (p : QRPayload) (gym : GymDoc) :
    verifyQRCode now (some p) gym = true ↔
      (strTruthy p.id = true ∧ strTruthy p.gymId = true ∧
        p.gymId = some gym._id ∧
        (gym.qrCode = none ∨
          (isQRCodeExpired now gym = false ∧
            ∃ q, gym.qrCode = some q ∧ p.id = q.code))) := by
  cases hq : gym.qrCode with
  | none =>
    by_cases h1 : strTruthy p.id <;> by_cases h2 : strTruthy p.gymId <;>
      by_cases h3 : p.gymId = some gym._id <;>
        simp [verifyQRCode, hq, h1, h2, h3]
  | some q =>
    by_cases h1 : strTruthy p.id <;> by_cases h2 : strTruthy p.gymId <;>
      by_cases h3 : p.gymId = some gym._id <;>
        by_cases h4 : isQRCodeExpired now gym <;>
          by_cases h5 : p.id = q.code <;>
            simp [verifyQRCode, hq, h1, h2, h3, h4, h5]

/-- Neither the name nor the email nor the role nor the isActive update
touches the points field; the points update overwrites it for admins. -/
lemma applyActiveUpd_points (requester : UserDoc) (ba : Option Bool)
    (u : UserDoc) : (applyActiveUpd requester ba u).points = u.points := by
  cases ba with
  | none => rfl
  | some b => by_cases h : isAdminReq requester <;> simp [applyActiveUpd, h]

lemma applyPointsUpd_points (requester : UserDoc) (bp : Option ℚ)
    (u : UserDoc) (pts : ℚ)
    (hrole : isAdminReq requester) (hbp : bp = some pts) :
    (applyPointsUpd requester bp u).points = pts := by
  subst hbp
  simp [applyPointsUpd, hrole]

lemma updateUserCore_points (requester : UserDoc) (body : UpdateUserBody)
    (u0 : UserDoc) (pts : ℚ)
    (hrole : isAdminReq requester) (hbp : body.points = some pts) :
    (updateUserCore requester body u0).points = pts := by
  unfold updateUserCore
  rw [applyActiveUpd_points, applyPointsUpd_points requester body.points _ pts hrole hbp]

/-- C5 (amended) — the balance is not mutated only through the ledger:
the publicly reachable admin update operation (`PUT /api/users/:id`,
handler `updateUser`) sets the account's points directly from the
request body.  For any admin requester and any body carrying a
non-negative `points` value, the handler succeeds, stores the target
with exactly that balance by direct field write, and appends no
transaction record — `createTransaction` is never involved. -/
theorem c5_updateUser_writes_balance_directly (st : AppState)
    (requester : UserDoc) (tid : String) (body : UpdateUserBody)
    (u0 : UserDoc) (pts : ℚ)
    (hrole : isAdminReq requester)
    (hno : ¬ requester.role = .user)
    (hfind : findUser st.users tid = some u0)
    (hbp : body.points = some pts) (hnn : 0 ≤ pts) :
    updateUser st requester tid body =
      ({ st with users := st.users.map fun u =>
           if u._id = tid then updateUserCore requester body u0 else u },
        .ok (updateUserCore requester body u0)) ∧
      (updateUserCore requester body u0).points = pts ∧
      (updateUser st requester tid body).1.transactions = st.transactions := by
  have hpts := updateUserCore_points requester body u0 pts hrole hbp
  have hval : userValid (updateUserCore requester body u0) = true := by
    simp [userValid, hpts, hnn]
  have hne : ¬ (requester.role = .user ∧ requester._id ≠ tid) := by
    intro hc; exact hno hc.1
  have hmain : updateUser st requester tid body =
      ({ st with users := st.users.map fun u =>
           if u._id = tid then updateUserCore requester body u0 else u },
        .ok (updateUserCore requester body u0)) := by
    unfold updateUser
    rw [if_neg hne, hfind]
    simp [hval]
  exact ⟨hmain, hpts, by rw [hmain]⟩

/-- The request body of the concrete direct-write scenario: only
`points := 7` supplied. -/
def bodyPts7 : UpdateUserBody :=
  { name := none, email := none, role := none, points := some 7,
    isActive := none }

/-- Witness for C5 (amended): the concrete admin request setting the
member's points to 7 goes through the direct write path. -/
theorem c5_witness :
    updateUser stD uAdmin "u1" bodyPts7 =
      ({ stD with users := stD.users.map fun u =>
           if u._id = "u1" then updateUserCore uAdmin bodyPts7 uMember else u },
        .ok (updateUserCore uAdmin bodyPts7 uMember)) ∧
      (updateUserCore uAdmin bodyPts7 uMember).points = 7 ∧
      (updateUser stD uAdmin "u1" bodyPts7).1.transactions = stD.transactions :=
  c5_updateUser_writes_balance_directly stD uAdmin "u1" bodyPts7 uMember 7
    (Or.inr rfl) (by decide) (by decide) rfl (by decide)

/-- C5 (counterexample) — the claim "no publicly reachable operation
other than createTransaction changes an account's points" is false: the
admin update handler, reachable at `PUT /api/users/:id`, changes the
member's stored balance from 5 to 7 while the transaction log stays
empty — a direct field mutation outside the ledger. -/
theorem c5_direct_mutation_counterexample :
    findUser (updateUser stD uAdmin "u1" bodyPts7).1.users "u1" =
        some { uMember with points := 7 } ∧
      findUser stD.users "u1" = some uMember ∧
      uMember.points = 5 ∧
      (updateUser stD uAdmin "u1" bodyPts7).1.transactions = [] := by
  refine ⟨?_, by decide, by decide, ?_⟩
  · simp [updateUser, updateUserCore, applyNameUpd, applyEmailUpd, applyRoleUpd,
      applyPointsUpd, applyActiveUpd, isAdminReq, userValid, findUser,
      setUserPoints, stD, uMember, uAdmin, bodyPts7, List.find?,
      decide_eq_true (show (0:ℚ) ≤ 7 by norm_num)]
  · simp [updateUser, updateUserCore, applyNameUpd, applyEmailUpd, applyRoleUpd,
      applyPointsUpd, applyActiveUpd, isAdminReq, userValid, findUser, stD,
      uMember, uAdmin, bodyPts7, List.find?,
      decide_eq_true (show (0:ℚ) ≤ 7 by norm_num)]

/-- Unfolding of the issue controller when the gym exists: the stored
gym gains `qrCode = {code, expiresAt = now + hours*60}` and the QR data
is returned. -/
lemma generateQRCode_found (st : AppState) (gid qrId : String)
    (now hours : Nat) (gym : GymDoc)
    (hg : findGym st.gyms gid = some gym) :
    generateQRCode st gid qrId now hours =
      ({ st with gyms := setGym st.gyms { gym with qrCode := some { code := some qrId, expiresAt := some (now + hours * 60) } } },
        .ok (generateGymQRCode gym qrId now hours)) := by
  unfold generateQRCode
  rw [hg]
  rfl

/-- C6 — Supersession: if a QR session is issued for a gym and then a
second one is issued for the same gym with a fresh (distinct) token,
the payload embedded in the first issuance verifies as false against
the gym record any later scan resolves from the store — at every
current time, in particular before the first session's expiry. -/
theorem c6_supersession (st : AppState) (gid tok1 tok2 : String)
    (t1 t2 now : Nat) (gym g2 : GymDoc)
    (hg : findGym st.gyms gid = some gym)
    (hne : tok1 ≠ tok2)
    (hg2 : findGym
        ((generateQRCode (generateQRCode st gid tok1 t1 24).1 gid tok2 t2 24).1).gyms
        gid = some g2) :
    verifyQRCode now (some (generateGymQRCode gym tok1 t1 24).data) g2 = false := by
  have hfind1 : findGym (setGym st.gyms { gym with qrCode := some { code := some tok1, expiresAt := some (t1 + 24 * 60) } }) gid = some { gym with qrCode := some { code := some tok1, expiresAt := some (t1 + 24 * 60) } } :=
    findGym_setGym st.gyms gid gym _ hg rfl
  rw [generateQRCode_found st gid tok1 t1 24 gym hg] at hg2
  rw [generateQRCode_found _ gid tok2 t2 24 _ hfind1] at hg2
  have hfind2 := findGym_setGym (setGym st.gyms { gym with qrCode := some { code := some tok1, expiresAt := some (t1 + 24 * 60) } }) gid _ { gym with qrCode := some { code := some tok2, expiresAt := some (t2 + 24 * 60) } } hfind1 rfl
  rw [hfind2] at hg2
  obtain rfl : g2 = { gym with qrCode := some { code := some tok2, expiresAt := some (t2 + 24 * 60) } } :=
    (Option.some_inj.mp hg2).symm
  by_cases htok : tok1 = ""
  · simp [verifyQRCode, generateGymQRCode, strTruthy, htok]
  · by_cases hgid : gym._id = ""
    · simp [verifyQRCode, generateGymQRCode, strTruthy, htok, hgid]
    · simp [verifyQRCode, generateGymQRCode, strTruthy, isQRCodeExpired,
        htok, hgid, hne]

/-- The gym record as stored after the second concrete issuance below. -/
def gAfterSecond : GymDoc :=
  { _id := "g1", name := "G", pointsRequired := 10,
    qrCode := some { code := some "tokB", expiresAt := some 1441 } }

/-- Witness for C6: a session issued at minute 0 for the concrete gym,
superseded at minute 1 by a distinct token, makes the first payload
verify as false at minute 2. -/
theorem c6_witness :
    verifyQRCode 2 (some (generateGymQRCode gOne "tokA" 0 24).data)
      gAfterSecond = false :=
  c6_supersession stD "g1" "tokA" "tokB" 0 1 2 gOne gAfterSecond
    (by decide) (by decide) (by decide)

/-- C7 — Expiry window: a session issued at time `t` with the default
24-hour TTL verifies as valid at `t` + 23h59m and as invalid at
`t` + 24h1m (times in minutes), against the gym record the store then
holds, for the payload embedded at issuance. -/
theorem c7_expiry_window (st : AppState) (gid tok : String) (t : Nat)
    (gym g1 : GymDoc)
    (hg : findGym st.gyms gid = some gym)
    (htok : tok ≠ "") (hid : gym._id ≠ "")
    (hg1 : findGym ((generateQRCode st gid tok t 24).1).gyms gid = some g1) :
    verifyQRCode (t + 23 * 60 + 59)
        (some (generateGymQRCode gym tok t 24).data) g1 = true ∧
      verifyQRCode (t + 24 * 60 + 1)
        (some (generateGymQRCode gym tok t 24).data) g1 = false := by
  rw [generateQRCode_found st gid tok t 24 gym hg] at hg1
  rw [findGym_setGym st.gyms gid gym { gym with qrCode := some { code := some tok, expiresAt := some (t + 24 * 60) } } hg rfl] at hg1
  obtain rfl : g1 = { gym with qrCode := some { code := some tok, expiresAt := some (t + 24 * 60) } } :=
    (Option.some_inj.mp hg1).symm
  constructor
  · simp [verifyQRCode, generateGymQRCode, strTruthy, isQRCodeExpired,
      htok, hid, show ¬ (t + 24 * 60 < t + 23 * 60 + 59) from by omega]
  · simp [verifyQRCode, generateGymQRCode, strTruthy, isQRCodeExpired,
      htok, hid, show t + 24 * 60 < t + 24 * 60 + 1 from by omega]

/-- The gym record as stored after the concrete issuance at minute 0. -/
def gAfterFirst : GymDoc :=
  { _id := "g1", name := "G", pointsRequired := 10,
    qrCode := some { code := some "tokA", expiresAt := some 1440 } }

/-- Witness for C7: the concrete session issued at minute 0 is valid at
minute 1439 and invalid at minute 1441. -/
theorem c7_witness :
    verifyQRCode (0 + 23 * 60 + 59)
        (some (generateGymQRCode gOne "tokA" 0 24).data) gAfterFirst = true ∧
      verifyQRCode (0 + 24 * 60 + 1)
        (some (generateGymQRCode gOne "tokA" 0 24).data) gAfterFirst = false :=
  c7_expiry_window stD "g1" "tokA" 0 gOne gAfterFirst
    (by decide) (by decide) (by decide) (by decide)

/-- C10 — In the scan flow the gym is resolved by
`Gym.findById(payload.gymId)`, so whenever resolution succeeds the
resolved gym's identity equals the payload's embedded gym identity by
construction; consequently the verifier's gym-identity equality check
always passes and `verifyQRCode` decides exactly as the same verifier
with that check removed — the check can never be the cause of a
denial. -/
theorem c10_gym_check_never_denies (st : AppState) (p : QRPayload)
    (gym : GymDoc) (h : resolveScanGym st p = some gym) :
    p.gymId = some gym._id ∧
      ∀ now, verifyQRCode now (some p) gym =
        verifyQRCodeSansGymCheck now (some p) gym := by
  have hpg : ∃ gid, p.gymId = some gid ∧ findGym st.gyms gid = some gym := by
    unfold resolveScanGym at h
    cases hp : p.gymId with
    | none => rw [hp] at h; simp at h
    | some gid => rw [hp] at h; exact ⟨gid, rfl, h⟩
  obtain ⟨gid, hp, hf⟩ := hpg
  have hgid : gym._id = gid := findGym_id st.gyms gid gym hf
  have hpg2 : p.gymId = some gym._id := by rw [hp, hgid]
  refine ⟨hpg2, fun now => ?_⟩
  simp [verifyQRCode, verifyQRCodeSansGymCheck, hpg2]

/-- Witness for C10: the forged payload's embedded gym id resolves the
concrete gym, and verification agrees with the check-free verifier. -/
theorem c10_witness :
    pForged.gymId = some gOne._id ∧
      verifyQRCode 0 (some pForged) gOne =
        verifyQRCodeSansGymCheck 0 (some pForged) gOne :=
  ⟨(c10_gym_check_never_denies stD pForged gOne (by decide)).1,
    (c10_gym_check_never_denies stD pForged gOne (by decide)).2 0⟩

end MyGym
